import Mathlib

/-!
Verification of the `agent_portrayal` callback defined in
`docs/tutorials/visualization_tutorial.ipynb`:

```
def agent_portrayal(agent):
    size = 10
    color = "tab:red"
    if agent.wealth > 0:
        size = 50
        color = "tab:blue"
    return {"size": size, "color": color}
```

The entity (`agent`) is modelled as a bag of named numeric attributes;
attribute access is a lookup that can fail, mirroring Python's
`AttributeError` when the attribute is absent.  The returned dict is
modelled as an association list of field name / value pairs.
-/

/-- A value stored in a Display Record field: the source dict holds a
numeric `size` and a string `color`. -/
inductive PValue where
  | num (n : Int)
  | str (s : String)
deriving DecidableEq, Repr

/-- The Python dict returned by the resolver, as an association list. -/
abbrev DisplayRecord := List (String × PValue)

/-- An entity: an opaque handle exposing named numeric attributes. -/
structure Agent where
  attrs : List (String × Int)
deriving DecidableEq, Repr

/-- Python attribute access `agent.<name>`: `none` models the
`AttributeError` raised when the attribute is absent. -/
def Agent.getattr (a : Agent) (name : String) : Option Int :=
  (a.attrs.find? (fun p => p.1 = name)).map (fun p => p.2)

/-- State-passing embedding of `agent_portrayal`: the result paired with
the entity as it stands after the call.  The source only reads
`agent.wealth`; it performs no attribute assignment, so the returned
entity carries the same attribute list the call received. -/
def agent_portrayalS (agent : Agent) :
    Except String DisplayRecord × Agent :=
  let size : Int := 10
  let color : String := "tab:red"
  match agent.getattr "wealth" with
  | none => (Except.error "AttributeError: wealth", agent)
  | some wealth =>
    let (size, color) :=
      if wealth > 0 then ((50 : Int), "tab:blue") else (size, color)
    (Except.ok [("size", PValue.num size), ("color", PValue.str color)], agent)

/-- The value `agent_portrayal` returns (or the error it raises). -/
def agent_portrayal (agent : Agent) : Except String DisplayRecord :=
  (agent_portrayalS agent).1

/-- The favorable record `{"size": 50, "color": "tab:blue"}`. -/
def favorableRecord : DisplayRecord :=
  [("size", PValue.num 50), ("color", PValue.str "tab:blue")]

/-- The baseline/depleted record `{"size": 10, "color": "tab:red"}`. -/
def baselineRecord : DisplayRecord :=
  [("size", PValue.num 10), ("color", PValue.str "tab:red")]

/-- Dict field lookup on a Display Record. -/
def DisplayRecord.get (r : DisplayRecord) (k : String) : Option PValue :=
  (r.find? (fun p => p.1 = k)).map (fun p => p.2)

/-- The key set of a Display Record, in insertion order. -/
def DisplayRecord.keys (r : DisplayRecord) : List String :=
  r.map (fun p => p.1)

/-- C1: for every entity whose wealth attribute is greater than 0, the
resolver returns exactly the favorable record
`{"color": "tab:blue", "size": 50}`. -/
theorem agent_portrayal_pos_favorable (a : Agent) (w : Int)
    (h : a.getattr "wealth" = some w) (hw : w > 0) :
    agent_portrayal a = Except.ok favorableRecord := by
  simp [agent_portrayal, agent_portrayalS, h, hw, favorableRecord]

/-- Witness for C1: wealth 37 yields the favorable record. -/
theorem agent_portrayal_pos_favorable_w :
    agent_portrayal ⟨[("wealth", 37)]⟩ = Except.ok favorableRecord :=
  agent_portrayal_pos_favorable ⟨[("wealth", 37)]⟩ 37 rfl (by decide)

/-- C2: for every entity whose wealth attribute equals 0, the resolver
returns exactly the baseline record `{"color": "tab:red", "size": 10}`. -/
theorem agent_portrayal_zero_baseline (a : Agent)
    (h : a.getattr "wealth" = some 0) :
    agent_portrayal a = Except.ok baselineRecord := by
  simp [agent_portrayal, agent_portrayalS, h, baselineRecord]

/-- Witness for C2: wealth 0 yields the baseline record. -/
theorem agent_portrayal_zero_baseline_w :
    agent_portrayal ⟨[("wealth", 0)]⟩ = Except.ok baselineRecord :=
  agent_portrayal_zero_baseline ⟨[("wealth", 0)]⟩ rfl

/-- C3: an entity lacking the wealth attribute makes the resolver fail
with the attribute-missing error rather than return any record. -/
theorem agent_portrayal_missing_attr_fails (a : Agent)
    (h : a.getattr "wealth" = none) :
    agent_portrayal a = Except.error "AttributeError: wealth" := by
  simp [agent_portrayal, agent_portrayalS, h]

/-- Witness for C3: an entity with no attributes at all. -/
theorem agent_portrayal_missing_attr_fails_w :
    agent_portrayal ⟨[]⟩ = Except.error "AttributeError: wealth" :=
  agent_portrayal_missing_attr_fails ⟨[]⟩ rfl

/-- C4: the resolver is deterministic: entities with identical wealth
attribute values receive structurally equal results (calling it twice on
one unchanged entity is the instance with `a1 = a2`). -/
theorem agent_portrayal_deterministic (a1 a2 : Agent)
    (h : a1.getattr "wealth" = a2.getattr "wealth") :
    agent_portrayal a1 = agent_portrayal a2 := by
  unfold agent_portrayal agent_portrayalS
  rw [h]
  cases a2.getattr "wealth" <;> simp

/-- Witness for C4: two distinct entities sharing the wealth value 5. -/
theorem agent_portrayal_deterministic_w :
    agent_portrayal ⟨[("wealth", 5)]⟩ =
      agent_portrayal ⟨[("wealth", 5), ("age", 3)]⟩ :=
  agent_portrayal_deterministic ⟨[("wealth", 5)]⟩
    ⟨[("wealth", 5), ("age", 3)]⟩ rfl

/-- C5: the call leaves the entity unchanged: the entity state after
`agent_portrayal` runs is exactly the entity it was given. -/
theorem agent_portrayal_no_mutation (a : Agent) :
    (agent_portrayalS a).2 = a := by
  unfold agent_portrayalS
  cases h : a.getattr "wealth" <;> simp

/-- C6: whenever the wealth attribute is present, the returned record has
concrete values for both `color` and `size`. -/
theorem agent_portrayal_record_complete (a : Agent) (w : Int)
    (h : a.getattr "wealth" = some w) :
    ∃ r, agent_portrayal a = Except.ok r ∧
      (r.get "color").isSome ∧ (r.get "size").isSome := by
  by_cases hw : w > 0
  · exact ⟨favorableRecord, agent_portrayal_pos_favorable a w h hw, by decide⟩
  · refine ⟨baselineRecord, ?_, by decide⟩
    simp [agent_portrayal, agent_portrayalS, h, hw, baselineRecord]

/-- Witness for C6: wealth 2 yields a record holding both fields. -/
theorem agent_portrayal_record_complete_w :
    ∃ r, agent_portrayal ⟨[("wealth", 2)]⟩ = Except.ok r ∧
      (r.get "color").isSome ∧ (r.get "size").isSome :=
  agent_portrayal_record_complete ⟨[("wealth", 2)]⟩ 2 rfl

/-- C7: whenever the wealth attribute is present, the `size` field of the
returned record is a strictly positive number. -/
theorem agent_portrayal_size_positive (a : Agent) (w : Int)
    (h : a.getattr "wealth" = some w) :
    ∃ r n, agent_portrayal a = Except.ok r ∧
      r.get "size" = some (PValue.num n) ∧ 0 < n := by
  by_cases hw : w > 0
  · exact ⟨favorableRecord, 50, agent_portrayal_pos_favorable a w h hw,
      by decide, by decide⟩
  · refine ⟨baselineRecord, 10, ?_, by decide, by decide⟩
    simp [agent_portrayal, agent_portrayalS, h, hw, baselineRecord]

/-- Witness for C7: wealth -4 still yields a positive size. -/
theorem agent_portrayal_size_positive_w :
    ∃ r n, agent_portrayal ⟨[("wealth", -4)]⟩ = Except.ok r ∧
      r.get "size" = some (PValue.num n) ∧ 0 < n :=
  agent_portrayal_size_positive ⟨[("wealth", -4)]⟩ (-4) rfl

/-- C8: a strictly negative wealth attribute also yields the baseline
record, because the code branches only on `wealth > 0`. -/
theorem agent_portrayal_neg_baseline (a : Agent) (w : Int)
    (h : a.getattr "wealth" = some w) (hw : w < 0) :
    agent_portrayal a = Except.ok baselineRecord := by
  simp [agent_portrayal, agent_portrayalS, h, baselineRecord, not_lt.mpr hw.le]

/-- Witness for C8: wealth -1 yields the baseline record. -/
theorem agent_portrayal_neg_baseline_w :
    agent_portrayal ⟨[("wealth", -1)]⟩ = Except.ok baselineRecord :=
  agent_portrayal_neg_baseline ⟨[("wealth", -1)]⟩ (-1) rfl (by decide)

/-- C9: the result depends only on the truth of `wealth > 0`: two
entities whose wealth values agree on that predicate receive
structurally identical records. -/
theorem agent_portrayal_threshold_only (a1 a2 : Agent) (w1 w2 : Int)
    (h1 : a1.getattr "wealth" = some w1)
    (h2 : a2.getattr "wealth" = some w2)
    (hiff : w1 > 0 ↔ w2 > 0) :
    agent_portrayal a1 = agent_portrayal a2 := by
  by_cases hw : w1 > 0
  · simp [agent_portrayal, agent_portrayalS, h1, h2, hw, hiff.mp hw]
  · have hw2 : ¬ w2 > 0 := fun hp => hw (hiff.mpr hp)
    simp [agent_portrayal, agent_portrayalS, h1, h2, hw, hw2]

/-- Witness for C9: wealth 1 and wealth 99 receive the same record. -/
theorem agent_portrayal_threshold_only_w :
    agent_portrayal ⟨[("wealth", 1)]⟩ = agent_portrayal ⟨[("wealth", 99)]⟩ :=
  agent_portrayal_threshold_only ⟨[("wealth", 1)]⟩ ⟨[("wealth", 99)]⟩
    1 99 rfl rfl (by decide)

/-- C10: whenever the wealth attribute is present, the returned record
holds exactly the two keys `size` and `color` and no others. -/
theorem agent_portrayal_exact_keys (a : Agent) (w : Int)
    (h : a.getattr "wealth" = some w) :
    ∃ r, agent_portrayal a = Except.ok r ∧
      DisplayRecord.keys r = ["size", "color"] := by
  by_cases hw : w > 0
  · exact ⟨favorableRecord, agent_portrayal_pos_favorable a w h hw, by decide⟩
  · refine ⟨baselineRecord, ?_, by decide⟩
    simp [agent_portrayal, agent_portrayalS, h, hw, baselineRecord]

/-- Witness for C10: wealth 7 yields a record keyed exactly by size and
color. -/
theorem agent_portrayal_exact_keys_w :
    ∃ r, agent_portrayal ⟨[("wealth", 7)]⟩ = Except.ok r ∧
      DisplayRecord.keys r = ["size", "color"] :=
  agent_portrayal_exact_keys ⟨[("wealth", 7)]⟩ 7 rfl
